import Mathlib

/-!
Verification of the job orchestration layer of the VibeVoice serverless
handler (`src/handler.optimized.py`): input validation, lazy one-time worker
initialization, bounded-time delegation to an external synthesis process,
output-artifact discovery, and the handler boundary.

The embedding is shallow: Python runtime values are modelled by `PyVal`,
exceptions by `Except String`, the process-global mutable state
(`model_initialized`, `model_path`, `device`) by an explicit `WorkerState`
threaded through the functions, and the outside world (filesystem, CUDA,
the spawned synthesis process) by explicit environment records.  Each Lean
definition mirrors the Python function of the same name.
-/

deriving instance DecidableEq for Except

namespace VibeVoice

/-- Model of a Python runtime value, covering the shapes a JSON job payload
can take (`None`, booleans, integers, strings, lists, string-keyed dicts). -/
inductive PyVal where
  | none
  | bool (b : Bool)
  | int (n : Int)
  | str (s : String)
  | list (xs : List PyVal)
  | dict (entries : List (String × PyVal))

/-- Python truthiness (`bool(v)`): `None`, `False`, `0`, `""`, `[]`, `{}`
are falsy, everything else is truthy. -/
def pyTruthy : PyVal → Bool
  | .none => false
  | .bool b => b
  | .int n => n != 0
  | .str s => s != ""
  | .list xs => !xs.isEmpty
  | .dict es => !es.isEmpty

/-- Models `isinstance(v, str)`. -/
def PyVal.isStr : PyVal → Bool
  | .str _ => true
  | _ => false

/-- Models `isinstance(v, list)`. -/
def PyVal.isList : PyVal → Bool
  | .list _ => true
  | _ => false

/-- Python's builtin `str(v)` for the scalar shapes; list/dict renderings are
abstracted to fixed non-empty brackets (the handler only consumes the
stringified value through `.strip()`-nonemptiness, and Python's rendering of
a list or dict is never whitespace-only). -/
def pyStr : PyVal → String
  | .none => "None"
  | .bool b => if b then "True" else "False"
  | .int n => toString n
  | .str s => s
  | .list _ => "[...]"
  | .dict _ => "\x7b...\x7d"

/-- Python slicing `s[:n]` on a string (first `n` characters). -/
def takeChars (s : String) (n : Nat) : String :=
  ⟨s.data.take n⟩

/-- Python `str.strip()` with no argument: drop whitespace characters from
both ends, defined over the character list. -/
def pyStrip (s : String) : String :=
  ⟨((s.data.dropWhile Char.isWhitespace).reverse.dropWhile Char.isWhitespace).reverse⟩

/-- Python `str.lower()` (ASCII case folding), over the character list. -/
def pyLower (s : String) : String :=
  ⟨s.data.map Char.toLower⟩

/-- Models `InputValidator.validate_text` (handler.optimized.py:38-46).
`raise ValueError` is modelled as `Except.error` with the message;
`str.strip()` by `pyStrip`. -/
def validate_text : PyVal → Except String String
  | .str s =>
      if s = "" then .error "Text must be a non-empty string"
      else if s.length > 10000 then .error "Text too long (max 10,000 characters)"
      else .ok (pyStrip s)
  | _ => .error "Text must be a non-empty string"

/-- Models `InputValidator.validate_speaker_names` (handler.optimized.py:48-60):
non-list input is replaced by `["Alice","Bob"]`; the list is truncated to 4;
if fewer than 2 entries remain it is replaced by `["Alice","Bob"]`; finally
each entry is stringified and stripped and empty-after-strip entries are
dropped (the final comprehension runs after the length check). -/
def validate_speaker_names (v : PyVal) : List String :=
  let sn : List PyVal :=
    match v with
    | .list xs => xs
    | _ => [.str "Alice", .str "Bob"]
  let sn := sn.take 4
  let sn := if sn.length < 2 then [PyVal.str "Alice", PyVal.str "Bob"] else sn
  (sn.map (fun name => pyStrip (pyStr name))).filter (fun s => s != "")

/-- The allowed output formats (handler.optimized.py:64). -/
def allowed_formats : List String := ["wav", "mp3", "flac"]

/-- Models `InputValidator.validate_output_format` (handler.optimized.py:62-70):
`format_type.lower() if format_type else "wav"`, then membership in the
allowed set with fallback `"wav"`.  Calling `.lower()` on a truthy
non-string raises `AttributeError`, modelled as `Except.error`. -/
def validate_output_format (v : PyVal) : Except String String :=
  if pyTruthy v then
    match v with
    | .str s =>
        let f := pyLower s
        if allowed_formats.contains f then .ok f else .ok "wav"
    | _ => .error "AttributeError: object has no attribute lower"
  else .ok "wav"

/-! ## Worker lifecycle (`initialize_model`, handler.optimized.py:72-115) -/

/-- The process-global mutable state `model_initialized` / `model_path` /
`device` (handler.optimized.py:31-33), made explicit. -/
structure WorkerState where
  model_initialized : Bool
  model_path : Option String
  device : Option String
  deriving DecidableEq

/-- Fresh process state: not initialized, no path, no device. -/
def WorkerState.fresh : WorkerState := ⟨false, .none, .none⟩

/-- The outside world consulted by `initialize_model`: CUDA availability,
the `MODEL_PATH` environment variable, and which filesystem paths exist.
The `config.json` probe (handler.optimized.py:94-103) only logs and never
changes control flow or state, so it is not modelled. -/
structure InitEnv where
  cuda_available : Bool
  env_model_path : Option String
  existing_paths : List String
  deriving DecidableEq

/-- Default model path used when `MODEL_PATH` is unset
(handler.optimized.py:88). -/
def default_model_path : String := "/app/models/VibeVoice-Large"

/-- Models `os.environ.get('MODEL_PATH', '/app/models/VibeVoice-Large')`. -/
def resolved_model_path (env : InitEnv) : String :=
  env.env_model_path.getD default_model_path

/-- Models `initialize_model` (handler.optimized.py:72-115).  Returns the boolean
result, the updated global state, and whether an initialization attempt
(device + path resolution and filesystem check) was performed; the
already-initialized fast path at lines 76-77 performs none.  The
`except Exception` wrapper (lines 112-115) returns `False` and leaves
`model_initialized` unset; the only modelled failure source is the missing
model path (lines 90-92), which likewise returns `False` with
`model_initialized` still `false`.  Note that `device` and `model_path`
are assigned before the existence check, so they are updated even on
failure. -/
def initialize_model (env : InitEnv) (st : WorkerState) :
    Bool × WorkerState × Bool :=
  if st.model_initialized then (true, st, false)
  else
    let dev := if env.cuda_available then "cuda" else "cpu"
    let mp := resolved_model_path env
    let st' : WorkerState := { st with device := some dev, model_path := some mp }
    if env.existing_paths.contains mp then
      (true, { st' with model_initialized := true }, true)
    else
      (false, st', true)

/-! ## Generation (`generate_audio`, handler.optimized.py:117-260) -/

/-- An audio file on disk as the artifact search sees it: its path, its
extension, its modification time and its content bytes. -/
structure AFile where
  path : String
  ext : String
  mtime : Nat
  bytes : List Nat
  deriving DecidableEq

/-- Outcome of `subprocess.run(..., timeout=300)`: either
`TimeoutExpired` (after which the library has killed the child), or normal
completion with an exit status and captured output streams. -/
inductive ProcOutcome where
  | timeout
  | completed (returncode : Int) (stdout : String) (stderr : String)
  deriving DecidableEq

/-- The outside world consulted by `generate_audio`: the initialization
environment, which inference scripts exist, the temp-file name handed out
by `NamedTemporaryFile`, the outcome of the synthesis process, and the
audio files present under `/app/VibeVoice` (recursive glob) and under the
output directory `/tmp/vibevoice_output` once the process has finished. -/
structure GenEnv where
  init_env : InitEnv
  demo_script_exists : Bool
  existing_alt_scripts : List String
  txt_path : String
  outcome : ProcOutcome
  vibe_files : List AFile
  out_files : List AFile
  deriving DecidableEq

/-- The alternative script locations probed when the demo script is absent
(handler.optimized.py:152-156), in probe order. -/
def possible_scripts : List String :=
  ["/app/VibeVoice/inference.py", "/app/VibeVoice/generate.py",
   "/app/VibeVoice/run_inference.py"]

/-- Script discovery (handler.optimized.py:148-163): the demo script if it
exists, otherwise the first existing alternative, otherwise none. -/
def find_script (env : GenEnv) : Option String :=
  if env.demo_script_exists then some "/app/VibeVoice/demo/inference_from_file.py"
  else possible_scripts.find? (fun s => env.existing_alt_scripts.contains s)

/-- Models `Path(dir).glob(f"**/*.{ext}")`: the files in the tree with the given
extension. -/
def globExt (files : List AFile) (ext : String) : List AFile :=
  files.filter (fun f => f.ext == ext)

/-- The artifact search (handler.optimized.py:187-200): first the
requested format under `/app/VibeVoice`; if empty, each of `wav`, `mp3`,
`flac` in order under `/app/VibeVoice` (the loop leaves the `flac` result,
possibly empty, when none matched); if still empty, the requested format
under the output directory. -/
def find_audio_files (vibe out_dir : List AFile) (fmt : String) : List AFile :=
  let a := globExt vibe fmt
  let a :=
    if a.isEmpty then
      let w := globExt vibe "wav"
      if !w.isEmpty then w
      else
        let m := globExt vibe "mp3"
        if !m.isEmpty then m
        else globExt vibe "flac"
    else a
  if a.isEmpty then globExt out_dir fmt else a

/-- Models `max(audio_files, key=os.path.getmtime)` (handler.optimized.py:204):
Python's `max` keeps the current maximum and replaces it only on a strictly
greater key, so the earliest file among those of maximal mtime wins. -/
def maxByMtime : List AFile → Option AFile
  | [] => none
  | f :: fs => some (fs.foldl (fun acc g => if g.mtime > acc.mtime then g else acc) f)

/-- The value `generate_audio` returns, one constructor per `return` site
of handler.optimized.py:117-260 (timings are wall-clock data outside the
model; `size_mb` is represented by the byte count). -/
inductive GenResult where
  | success (audio_bytes : List Nat) (format : String) (size : Nat)
      (speakers : List String) (text_length : Nat)
  | error_invalid_input (msg : String)
  | error_init_failed
  | error_no_script
  | error_timeout
  | error_no_audio (stdout_excerpt stderr_excerpt : String)
  | error_generation_failed (stderr_excerpt stdout_excerpt : String)
  | error_internal (msg : String)
  deriving DecidableEq

/-- Observable side effects of one `generate_audio` call: whether the
temporary text file was created and whether it was deleted (the
`finally` block at handler.optimized.py:246-251), how many times the
synthesis process was launched, whether a timed-out child was killed by
`subprocess.run`, and which discovered audio artifact was unlinked. -/
structure GenTrace where
  txt_created : Bool
  txt_deleted : Bool
  proc_runs : Nat
  child_terminated : Bool
  audio_deleted : Option String
  deriving DecidableEq

/-- The empty trace: nothing created, nothing run. -/
def GenTrace.empty : GenTrace := ⟨false, false, 0, false, .none⟩

/-- Models `dict.get(key, default)` on a string-keyed dict. -/
def dictGet (es : List (String × PyVal)) (key : String) (dflt : PyVal) : PyVal :=
  ((es.find? (fun e => e.1 == key)).map Prod.snd).getD dflt

/-- The part of `generate_audio` after validation and successful model
initialization (handler.optimized.py:138-251): temp text file creation,
script discovery, the bounded subprocess invocation, the artifact search
and packaging, with the `finally` cleanup of the text file on every exit
path.  `takeChars · 500` models the `[:500]` excerpts. -/
def after_init (env : GenEnv) (st : WorkerState) (text : String)
    (speakers : List String) (output_format : String) :
    GenResult × WorkerState × GenTrace :=
  let tr : GenTrace := ⟨true, false, 0, false, .none⟩
  match find_script env with
  | none => (.error_no_script, st, { tr with txt_deleted := true })
  | some _script =>
    match env.outcome with
    | .timeout =>
        (.error_timeout, st,
         { tr with proc_runs := 1, child_terminated := true, txt_deleted := true })
    | .completed rc stdout stderr =>
        let tr := { tr with proc_runs := 1, txt_deleted := true }
        if rc = 0 then
          match maxByMtime (find_audio_files env.vibe_files env.out_files output_format) with
          | some latest =>
              (.success latest.bytes output_format latest.bytes.length speakers text.length,
               st, { tr with audio_deleted := some latest.path })
          | none =>
              (.error_no_audio (takeChars stdout 500) (takeChars stderr 500), st, tr)
        else
          (.error_generation_failed (takeChars stderr 500) (takeChars stdout 500), st, tr)

/-- Models `generate_audio` (handler.optimized.py:117-260).  The `try` wrappers
are explicit: a `ValueError` from `validate_text` is caught at line 253
(`"Invalid input: ..."`), an `AttributeError` from `validate_output_format`
or from calling `.get` on a non-dict input reaches the generic handler at
line 257 (`"Generation failed: ..."`), `TimeoutExpired` is caught at line
255, and a failed `initialize_model` returns the init-failure dict at line
136 before any temp file is created. -/
def generate_audio (env : GenEnv) (st : WorkerState) (job_input : PyVal) :
    GenResult × WorkerState × GenTrace :=
  match job_input with
  | .dict es =>
    match validate_text (dictGet es "text" (.str "")) with
    | .error m => (.error_invalid_input ("Invalid input: " ++ m), st, .empty)
    | .ok text =>
      let speakers := validate_speaker_names
        (dictGet es "speaker_names" (.list [.str "Alice", .str "Bob"]))
      match validate_output_format (dictGet es "output_format" (.str "wav")) with
      | .error m => (.error_internal ("Generation failed: " ++ m), st, .empty)
      | .ok output_format =>
        match initialize_model env.init_env st with
        | (ok, st', _) =>
          if ok then after_init env st' text speakers output_format
          else (.error_init_failed, st', .empty)
  | _ => (.error_internal "Generation failed: AttributeError: object has no attribute get", st, .empty)

/-! ## Handler boundary (`handler`, handler.optimized.py:262-294) -/

/-- Models `v.get(key, default)`: succeeds on dicts, raises `AttributeError`
(modelled as `Except.error`) on anything else. -/
def pyGet (v : PyVal) (key : String) (dflt : PyVal) : Except String PyVal :=
  match v with
  | .dict es => .ok (dictGet es key dflt)
  | _ => .error "AttributeError: object has no attribute get"

/-- Python's `key in v` for a string `key`: key membership for dicts,
substring test for strings, element equality for lists, `TypeError` for
non-container values. -/
def pyContains (v : PyVal) (key : String) : Except String Bool :=
  match v with
  | .dict es => .ok (es.any (fun e => e.1 == key))
  | .str s => .ok ((s.splitOn key).length > 1)
  | .list xs =>
      .ok (xs.any (fun x => match x with | .str s => s == key | _ => false))
  | _ => .error "TypeError: argument is not iterable"

/-- The value `handler` returns: one of its own two fast-fail dicts
(handler.optimized.py:269-287), a `generate_audio` result, or the
catch-all failure dict of line 294. -/
inductive HandlerResult where
  | no_input_error
  | missing_text_error
  | gen (r : GenResult)
  | handler_failed (msg : String)
  deriving DecidableEq

/-- The body of `handler` inside its `try` (handler.optimized.py:264-289):
extract `input`, fast-fail when it is falsy or lacks `"text"`, otherwise
run `generate_audio`.  An `Except.error` escaping this body models an
exception reaching the `except` clause at line 291. -/
def handler_body (env : GenEnv) (st : WorkerState) (job : PyVal) :
    Except String (HandlerResult × WorkerState × GenTrace) := do
  let job_input ← pyGet job "input" (.dict [])
  if !pyTruthy job_input then
    return (.no_input_error, st, .empty)
  else
    let has_text ← pyContains job_input "text"
    if !has_text then
      return (.missing_text_error, st, .empty)
    else
      let r := generate_audio env st job_input
      return (.gen r.1, r.2.1, r.2.2)

/-- Models `handler` (handler.optimized.py:262-294): the body wrapped in
`try/except Exception`, which converts any escaping exception into the
`{"error": f"Handler failed: ..."}` dict.  The `Except` return type keeps
"an exception propagates to the caller" expressible: it would be an
`Except.error` value. -/
def handler (env : GenEnv) (st : WorkerState) (job : PyVal) :
    Except String (HandlerResult × WorkerState × GenTrace) :=
  match handler_body env st job with
  | .ok r => .ok r
  | .error e => .ok (.handler_failed ("Handler failed: " ++ e), st, .empty)

/-! ## Interleaving model of concurrent `initialize_model` callers

`initialize_model` guards its body only with a read of the global
`model_initialized` flag; there is no lock in handler.optimized.py:72-115.
Each concurrent caller is modelled with two atomic steps: read the flag
(finishing immediately when it is set, the lines 76-77 fast path), then —
when the flag was clear — perform the initialization attempt and set the
flag (the success path, lines 84-110, taken as succeeding since the claim
concerns the race window, not resource failures). -/

/-- Phase of one caller: not yet started, past the flag check and about to
initialize, or finished having observed the given readiness. -/
inductive TPhase where
  | start
  | initing
  | finished (observed_ready : Bool)
  deriving DecidableEq

/-- Shared state of the interleaving: the `model_initialized` flag, the
number of initialization attempts performed so far, and each caller's
phase. -/
structure CState where
  flag : Bool
  attempts : Nat
  threads : List TPhase
  deriving DecidableEq

/-- One atomic step of caller `i` (out-of-range indices do nothing). -/
def cstep (s : CState) (i : Nat) : CState :=
  match s.threads.get? i with
  | Option.none => s
  | some .start =>
      if s.flag then { s with threads := s.threads.set i (.finished true) }
      else { s with threads := s.threads.set i .initing }
  | some .initing =>
      { s with flag := true, attempts := s.attempts + 1,
               threads := s.threads.set i (.finished true) }
  | some (.finished _) => s

/-- Run a schedule: a list of caller indices, each performing one atomic
step in turn. -/
def crun (s : CState) (sched : List Nat) : CState :=
  sched.foldl cstep s

/-- Initial state for `n` concurrent callers of a not-yet-initialized
worker. -/
def cinit (n : Nat) : CState :=
  ⟨false, 0, List.replicate n .start⟩

/-! ## Claims about the input validators (C1-C3) -/

/-- Dropping leading blanks passes through a replicated-space block. -/
theorem dropWhile_space_replicate_append (n : Nat) (l : List Char) :
    (List.replicate n ' ' ++ l).dropWhile Char.isWhitespace =
      l.dropWhile Char.isWhitespace := by
  induction n with
  | zero => rfl
  | succ k ih =>
      rw [List.replicate_succ, List.cons_append, List.dropWhile_cons,
        if_pos (by decide)]
      exact ih

/-- C1, counterexample: the claim fails twice on the code.  First,
`validate_text` accepts the whitespace-only string `" "` (it is truthy and
short enough) and returns the empty trimmed string, though the claim says
whitespace-only input is rejected.  Second, a string of 10,001 blanks
followed by `a` trims to `"a"` — trimmed length 1, inside the claimed
accepted range [1,10000] — yet is rejected, because the 10,000-character
limit is applied to the raw length (10,002) before trimming. -/
theorem C1_counterexample :
    validate_text (.str " ") = .ok "" ∧
    (String.mk (List.replicate 10001 ' ' ++ ['a'])).length = 10002 ∧
    pyStrip (String.mk (List.replicate 10001 ' ' ++ ['a'])) = "a" ∧
    validate_text (.str (String.mk (List.replicate 10001 ' ' ++ ['a']))) =
      .error "Text too long (max 10,000 characters)" := by
  have hlen : (String.mk (List.replicate 10001 ' ' ++ ['a'])).length = 10002 := by
    show (List.replicate 10001 ' ' ++ ['a']).length = 10002
    rw [List.length_append, List.length_replicate]
    decide
  have hne : String.mk (List.replicate 10001 ' ' ++ ['a']) ≠ "" := by
    intro h
    rw [h] at hlen
    exact absurd hlen (by decide)
  refine ⟨by decide, hlen, ?_, ?_⟩
  · show (⟨(((List.replicate 10001 ' ' ++ ['a']).dropWhile
        Char.isWhitespace).reverse.dropWhile Char.isWhitespace).reverse⟩ : String) = "a"
    rw [dropWhile_space_replicate_append]
    decide
  · simp only [validate_text]
    rw [if_neg hne, if_pos (by rw [hlen]; decide)]

/-- C1 (amended): `validate_text` rejects null/non-string/empty input and
rejects strings whose raw length exceeds 10,000; every other string —
judged by raw length, whitespace-only included — is accepted and its
trimmed (possibly empty) value returned. -/
theorem C1_validate_text_characterization :
    (∀ v : PyVal, pyTruthy v = false ∨ v.isStr = false →
      ∃ m, validate_text v = .error m) ∧
    (∀ s : String, s ≠ "" → s.length ≤ 10000 →
      validate_text (.str s) = .ok (pyStrip s)) ∧
    (∀ s : String, s.length > 10000 →
      validate_text (.str s) = .error "Text too long (max 10,000 characters)") := by
  refine ⟨?_, ?_, ?_⟩
  · intro v h
    cases v with
    | str s =>
        rcases h with h | h
        · have hs : s = "" := by simpa [pyTruthy] using h
          subst hs
          exact ⟨_, rfl⟩
        · simp [PyVal.isStr] at h
    | none => exact ⟨_, rfl⟩
    | bool b => exact ⟨_, rfl⟩
    | int n => exact ⟨_, rfl⟩
    | list xs => exact ⟨_, rfl⟩
    | dict es => exact ⟨_, rfl⟩
  · intro s h1 h2
    simp only [validate_text, if_neg h1, if_neg (by omega : ¬ s.length > 10000)]
  · intro s h
    have h1 : s ≠ "" := by
      intro hs; subst hs; simp at h
    simp only [validate_text, if_neg h1, if_pos h]

/-- C1, witness: a concrete in-range string is accepted and trimmed. -/
theorem C1_witness : (" hi " : String) ≠ "" ∧ validate_text (.str " hi ") = .ok "hi" := by
  refine ⟨by decide, ?_⟩
  rw [C1_validate_text_characterization.2.1 " hi " (by decide) (by decide)]
  decide

/-- C2: the code checks `len < 2` before dropping empty-after-trim entries,
so a list of two blank names survives the length check and is then filtered
to the empty list — not to `["Alice","Bob"]`, and with fewer than 2 entries,
contradicting the claimed invariant (and the code's own comment "Ensure we
have at least 2 speakers"). -/
theorem C2_blank_names_yield_empty_list :
    validate_speaker_names (.list [.str "", .str " "]) = [] := by decide

/-- C3, counterexample: the claim says `normalizeOutputFormat` never
rejects any input, but on a truthy non-string (here the integer 1) the code
calls `.lower()` on it and raises `AttributeError`. -/
theorem C3_counterexample :
    validate_output_format (.int 1) =
      .error "AttributeError: object has no attribute lower" := by decide

/-- C3 (amended): `validate_output_format` is total on falsy inputs
(yielding `"wav"`) and on strings (case-insensitive match in
`{wav,mp3,flac}`, any miss defaulting to `"wav"`), and every value it
returns lies in the allowed set; but on a truthy non-string input it
raises `AttributeError` rather than returning. -/
theorem C3_validate_output_format_characterization :
    (∀ v : PyVal, pyTruthy v = false → validate_output_format v = .ok "wav") ∧
    (∀ s : String, s ≠ "" →
      validate_output_format (.str s) =
        .ok (if allowed_formats.contains (pyLower s) then pyLower s else "wav")) ∧
    (∀ (v : PyVal) (f : String), validate_output_format v = .ok f →
      allowed_formats.contains f = true) ∧
    (∀ v : PyVal, pyTruthy v = true → v.isStr = false →
      validate_output_format v =
        .error "AttributeError: object has no attribute lower") := by
  refine ⟨?_, ?_, ?_, ?_⟩
  · intro v h
    simp [validate_output_format, h]
  · intro s h
    have ht : pyTruthy (.str s) = true := by simp [pyTruthy, h]
    simp only [validate_output_format, ht, if_true]
    split <;> rfl
  · intro v f h
    cases v with
    | str s =>
        by_cases hs : s = ""
        · subst hs
          rw [show validate_output_format (.str "") = .ok "wav" from by decide] at h
          injection h with h
          subst h
          decide
        · have ht : pyTruthy (.str s) = true := by simp [pyTruthy, hs]
          simp only [validate_output_format, ht, if_true] at h
          split at h
          · rename_i hc
            injection h with h
            subst h
            exact hc
          · injection h with h
            subst h
            decide
    | none =>
        rw [show validate_output_format .none = .ok "wav" from by decide] at h
        injection h with h
        subst h
        decide
    | bool b =>
        cases b with
        | false =>
            rw [show validate_output_format (.bool false) = .ok "wav" from by decide] at h
            injection h with h
            subst h
            decide
        | true =>
            have ht : pyTruthy (.bool true) = true := rfl
            simp only [validate_output_format, ht, if_true] at h
            exact Except.noConfusion h
    | int n =>
        rcases eq_or_ne n 0 with hn | hn
        · subst hn
          rw [show validate_output_format (.int 0) = .ok "wav" from by decide] at h
          injection h with h
          subst h
          decide
        · have ht : pyTruthy (.int n) = true := by simp [pyTruthy, hn]
          simp only [validate_output_format, ht, if_true] at h
          exact Except.noConfusion h
    | list xs =>
        cases xs with
        | nil =>
            rw [show validate_output_format (.list []) = .ok "wav" from by decide] at h
            injection h with h
            subst h
            decide
        | cons x t =>
            have ht : pyTruthy (.list (x :: t)) = true := by simp [pyTruthy]
            simp only [validate_output_format, ht, if_true] at h
            exact Except.noConfusion h
    | dict es =>
        cases es with
        | nil =>
            rw [show validate_output_format (.dict []) = .ok "wav" from by decide] at h
            injection h with h
            subst h
            decide
        | cons e t =>
            have ht : pyTruthy (.dict (e :: t)) = true := by simp [pyTruthy]
            simp only [validate_output_format, ht, if_true] at h
            exact Except.noConfusion h
  · intro v h1 h2
    cases v <;> simp_all [validate_output_format, PyVal.isStr]

/-- C3, witness: the string `"WAV"` is matched case-insensitively to
`"wav"`, an in-set return value. -/
theorem C3_witness :
    validate_output_format (.str "WAV") = .ok "wav" ∧
    allowed_formats.contains "wav" = true := by
  constructor
  · rw [C3_validate_output_format_characterization.2.1 "WAV" (by decide)]
    decide
  · exact C3_validate_output_format_characterization.2.2.1 (.str "WAV") "wav"
      (by rw [C3_validate_output_format_characterization.2.1 "WAV" (by decide)]; decide)

/-! ## Claims about the worker lifecycle (C5, C9) -/

/-- C5: the ready fast path returns immediately with no initialization
attempt and unchanged state; every call on a not-ready worker performs a
fresh attempt (no permanent poisoning); a failed initialization reports
`false` and leaves the worker not-ready; and a successful call marks the
worker ready, after which only the fast path runs, so the flag flips at
most once. -/
theorem C5_initialize_model_lifecycle :
    (∀ env st, st.model_initialized = true →
      initialize_model env st = (true, st, false)) ∧
    (∀ env st, st.model_initialized = false →
      (initialize_model env st).2.2 = true) ∧
    (∀ env st, st.model_initialized = false →
      resolved_model_path env ∉ env.existing_paths →
      (initialize_model env st).1 = false ∧
      (initialize_model env st).2.1.model_initialized = false) ∧
    (∀ env st, (initialize_model env st).1 = true →
      (initialize_model env st).2.1.model_initialized = true) := by
  refine ⟨?_, ?_, ?_, ?_⟩
  · intro env st h
    simp [initialize_model, h]
  · intro env st h
    simp only [initialize_model, h, Bool.false_eq_true, if_false]
    split <;> rfl
  · intro env st h hc
    simp [initialize_model, h, hc]
  · intro env st h
    cases hi : st.model_initialized with
    | true => simp [initialize_model, hi]
    | false =>
        by_cases hc : resolved_model_path env ∈ env.existing_paths
        · simp [initialize_model, hi, hc]
        · simp [initialize_model, hi, hc] at h

/-- C5, witness: a ready worker is returned unchanged with no attempt. -/
theorem C5_witness :
    initialize_model ⟨true, Option.none, ["/app/models/VibeVoice-Large"]⟩
        ⟨true, Option.none, Option.none⟩ =
      (true, ⟨true, Option.none, Option.none⟩, false) :=
  C5_initialize_model_lifecycle.1 _ _ rfl

/-- C9, counterexample: there is no lock around initialization, so two
concurrent callers can both pass the flag check before either initializes;
under the schedule 0,1,0,1 both perform an initialization attempt — two
attempts, not the claimed exactly one. -/
theorem C9_counterexample :
    (crun (cinit 2) [0, 1, 0, 1]).attempts = 2 ∧
    (crun (cinit 2) [0, 1, 0, 1]).threads = [.finished true, .finished true] := by
  decide

/-- A state in which the flag is set and no caller is mid-initialization:
from here no schedule can perform another attempt. -/
def quiescent (s : CState) : Prop :=
  s.flag = true ∧ TPhase.initing ∉ s.threads

/-- One step preserves quiescence and performs no attempt. -/
theorem cstep_preserves_quiescent (s : CState) (i : Nat) (hq : quiescent s) :
    quiescent (cstep s i) ∧ (cstep s i).attempts = s.attempts := by
  obtain ⟨hflag, hmem⟩ := hq
  unfold cstep
  cases hg : s.threads.get? i with
  | none => exact ⟨⟨hflag, hmem⟩, rfl⟩
  | some ph =>
      cases ph with
      | start =>
          simp only [hflag, if_true]
          refine ⟨⟨by simp [hflag], ?_⟩, by simp⟩
          intro hmem'
          rcases List.mem_or_eq_of_mem_set hmem' with h | h
          · exact hmem h
          · exact TPhase.noConfusion h
      | initing =>
          exact absurd (List.get?_mem hg) hmem
      | finished b => exact ⟨⟨hflag, hmem⟩, rfl⟩

/-- C9 (amended): `initialize_model` has no mutual exclusion, so concurrent
callers racing through the unguarded flag check may each perform an
initialization attempt; exactly one attempt is guaranteed only when the
first caller finishes initializing before the others check the flag — e.g.
the serialized schedule 0,0,1,2 of three callers performs exactly one
attempt and all callers observe the ready state — and once the flag is set
with no initialization in flight, no schedule ever performs another
attempt. -/
theorem C9_no_lock_behaviour :
    (∀ (s : CState) (sched : List Nat), quiescent s →
      quiescent (crun s sched) ∧ (crun s sched).attempts = s.attempts) ∧
    ((crun (cinit 3) [0, 0, 1, 2]).attempts = 1 ∧
      (crun (cinit 3) [0, 0, 1, 2]).threads =
        [.finished true, .finished true, .finished true]) := by
  constructor
  · intro s sched hq
    induction sched generalizing s with
    | nil => exact ⟨hq, rfl⟩
    | cons i rest ih =>
        have hstep := cstep_preserves_quiescent s i hq
        have hrest := ih (cstep s i) hstep.1
        exact ⟨hrest.1, by rw [crun, List.foldl_cons, ← crun, hrest.2, hstep.2]⟩
  · constructor <;> decide

/-- C9, witness: from a concrete quiescent state any schedule performs no
further attempt. -/
theorem C9_witness :
    quiescent ⟨true, 1, [.finished true, .start]⟩ ∧
    (crun ⟨true, 1, [.finished true, .start]⟩ [1, 0, 1]).attempts = 1 := by
  have hq : quiescent ⟨true, 1, [TPhase.finished true, TPhase.start]⟩ :=
    ⟨rfl, by decide⟩
  exact ⟨hq, (C9_no_lock_behaviour.1 _ [1, 0, 1] hq).2⟩

/-! ## Claims about generation and the handler boundary (C4, C6, C7, C8, C10) -/

/-- The deadline, in seconds, passed to `subprocess.run`
(handler.optimized.py:182). -/
def subprocess_timeout_seconds : Nat := 300

/-- Selection spec of the mtime fold underlying `maxByMtime`. -/
theorem foldl_mtime_spec (a : AFile) (fs : List AFile) :
    fs.foldl (fun acc g => if g.mtime > acc.mtime then g else acc) a ∈ a :: fs ∧
    ∀ g ∈ a :: fs,
      g.mtime ≤ (fs.foldl (fun acc g => if g.mtime > acc.mtime then g else acc) a).mtime := by
  induction fs generalizing a with
  | nil =>
      refine ⟨List.mem_cons_self a [], ?_⟩
      intro g hg
      rcases List.mem_cons.mp hg with h | h
      · subst h; exact le_refl _
      · exact absurd h (List.not_mem_nil g)
  | cons b t ih =>
      simp only [List.foldl_cons]
      obtain ⟨hmem, hle⟩ := ih (if b.mtime > a.mtime then b else a)
      have hstep_a : a.mtime ≤ (if b.mtime > a.mtime then b else a).mtime := by
        split
        · rename_i hgt; exact Nat.le_of_lt hgt
        · exact le_refl _
      have hstep_b : b.mtime ≤ (if b.mtime > a.mtime then b else a).mtime := by
        split
        · exact le_refl _
        · rename_i hng; omega
      have hstepmem : (if b.mtime > a.mtime then b else a) = b ∨
          (if b.mtime > a.mtime then b else a) = a := by
        split
        · exact Or.inl rfl
        · exact Or.inr rfl
      constructor
      · rcases List.mem_cons.mp hmem with h | h
        · rcases hstepmem with hs | hs
          · rw [h, hs]
            exact List.mem_cons_of_mem a (List.mem_cons_self b t)
          · rw [h, hs]
            exact List.mem_cons_self a (b :: t)
        · exact List.mem_cons_of_mem a (List.mem_cons_of_mem b h)
      · intro g hg
        rcases List.mem_cons.mp hg with h | hg2
        · subst h
          exact le_trans hstep_a (hle _ (List.mem_cons_self _ _))
        · rcases List.mem_cons.mp hg2 with h | h
          · subst h
            exact le_trans hstep_b (hle _ (List.mem_cons_self _ _))
          · exact hle g (List.mem_cons_of_mem _ h)

/-- The function `maxByMtime` returns a member of the list whose mtime is maximal. -/
theorem maxByMtime_spec (l : List AFile) (f : AFile) (h : maxByMtime l = some f) :
    f ∈ l ∧ ∀ g ∈ l, g.mtime ≤ f.mtime := by
  cases l with
  | nil => exact Option.noConfusion h
  | cons a fs =>
      have hf : f = fs.foldl (fun acc g => if g.mtime > acc.mtime then g else acc) a := by
        simpa [maxByMtime] using h.symm
      rw [hf]
      exact foldl_mtime_spec a fs

/-- C6: after a zero exit status the candidate set is the requested format
under the backend tree; if empty, the first non-empty of wav, mp3, flac
under the backend tree in that fixed order; if all are empty, the requested
format under the output directory; and the selected artifact is a candidate
of maximal modification time, whose bytes the success result returns. -/
theorem C6_artifact_search_order :
    (∀ vibe out fmt, globExt vibe fmt ≠ [] →
      find_audio_files vibe out fmt = globExt vibe fmt) ∧
    (∀ vibe out fmt, globExt vibe fmt = [] → globExt vibe "wav" ≠ [] →
      find_audio_files vibe out fmt = globExt vibe "wav") ∧
    (∀ vibe out fmt, globExt vibe fmt = [] → globExt vibe "wav" = [] →
      globExt vibe "mp3" ≠ [] →
      find_audio_files vibe out fmt = globExt vibe "mp3") ∧
    (∀ vibe out fmt, globExt vibe fmt = [] → globExt vibe "wav" = [] →
      globExt vibe "mp3" = [] → globExt vibe "flac" ≠ [] →
      find_audio_files vibe out fmt = globExt vibe "flac") ∧
    (∀ vibe out fmt, globExt vibe fmt = [] → globExt vibe "wav" = [] →
      globExt vibe "mp3" = [] → globExt vibe "flac" = [] →
      find_audio_files vibe out fmt = globExt out fmt) ∧
    (∀ l f, maxByMtime l = some f → f ∈ l ∧ ∀ g ∈ l, g.mtime ≤ f.mtime) ∧
    (∀ env st text sp fmt so se latest, find_script env ≠ Option.none →
      env.outcome = .completed 0 so se →
      maxByMtime (find_audio_files env.vibe_files env.out_files fmt) = some latest →
      (after_init env st text sp fmt).1 =
        .success latest.bytes fmt latest.bytes.length sp text.length) := by
  refine ⟨?_, ?_, ?_, ?_, ?_, maxByMtime_spec, ?_⟩
  · intro vibe out fmt h
    cases hg : globExt vibe fmt with
    | nil => exact absurd hg h
    | cons x xs => simp [find_audio_files, hg]
  · intro vibe out fmt h1 h2
    cases hw : globExt vibe "wav" with
    | nil => exact absurd hw h2
    | cons y ys => simp [find_audio_files, h1, hw]
  · intro vibe out fmt h1 h2 h3
    cases hm : globExt vibe "mp3" with
    | nil => exact absurd hm h3
    | cons y ys => simp [find_audio_files, h1, h2, hm]
  · intro vibe out fmt h1 h2 h3 h4
    cases hf : globExt vibe "flac" with
    | nil => exact absurd hf h4
    | cons y ys => simp [find_audio_files, h1, h2, h3, hf]
  · intro vibe out fmt h1 h2 h3 h4
    simp [find_audio_files, h1, h2, h3, h4]
  · intro env st text sp fmt so se latest hscript hout hmax
    rcases hs : find_script env with _ | scr
    · exact absurd hs hscript
    · simp [after_init, hs, hout, hmax]

/-- C6, witness: with only a wav file in the backend tree and mp3
requested, the fallback selects the wav candidates. -/
theorem C6_witness :
    find_audio_files [⟨"/app/VibeVoice/out.wav", "wav", 5, [7]⟩] [] "mp3" =
      globExt [⟨"/app/VibeVoice/out.wav", "wav", 5, [7]⟩] "wav" :=
  C6_artifact_search_order.2.1 [⟨"/app/VibeVoice/out.wav", "wav", 5, [7]⟩] [] "mp3"
    (by decide) (by decide)

/-- A generation environment where validation, initialization and script
discovery succeed and the synthesis process exceeds its deadline. -/
def initEnvOk : InitEnv := ⟨true, Option.none, ["/app/models/VibeVoice-Large"]⟩

/-- Environment for the timeout scenario. -/
def envTimeout : GenEnv := ⟨initEnvOk, true, [], "/tmp/job1.txt", .timeout, [], []⟩

/-- C4: when the synthesis process exceeds the 300-second deadline, the
operation fails with the distinct timeout error, the child process is
terminated (as `subprocess.run` does on `TimeoutExpired`), exactly one
process invocation occurred (no automatic retry), and the temporary text
artifact that was created is deleted by the `finally` cleanup. -/
theorem C4_timeout_behaviour (env : GenEnv) (st : WorkerState)
    (es : List (String × PyVal)) (text fmt : String)
    (htext : validate_text (dictGet es "text" (.str "")) = .ok text)
    (hfmt : validate_output_format (dictGet es "output_format" (.str "wav")) = .ok fmt)
    (hinit : (initialize_model env.init_env st).1 = true)
    (hscript : find_script env ≠ Option.none)
    (hto : env.outcome = .timeout) :
    (generate_audio env st (.dict es)).1 = .error_timeout ∧
    (generate_audio env st (.dict es)).2.2.txt_created = true ∧
    (generate_audio env st (.dict es)).2.2.txt_deleted = true ∧
    (generate_audio env st (.dict es)).2.2.proc_runs = 1 ∧
    (generate_audio env st (.dict es)).2.2.child_terminated = true ∧
    subprocess_timeout_seconds = 300 := by
  rcases hs : find_script env with _ | scr
  · exact absurd hs hscript
  rcases hi : initialize_model env.init_env st with ⟨ok, st2, att⟩
  have hok : ok = true := by rw [hi] at hinit; exact hinit
  subst hok
  simp only [generate_audio, htext, hfmt, hi, if_true, after_init, hs, hto]
  exact ⟨trivial, trivial, trivial, trivial, trivial, rfl⟩

/-- C4, witness: concrete timeout run. -/
theorem C4_witness :
    (generate_audio envTimeout WorkerState.fresh (.dict [("text", .str "hi")])).1 =
      .error_timeout ∧
    (generate_audio envTimeout WorkerState.fresh (.dict [("text", .str "hi")])).2.2.txt_created = true ∧
    (generate_audio envTimeout WorkerState.fresh (.dict [("text", .str "hi")])).2.2.txt_deleted = true := by
  have h := C4_timeout_behaviour envTimeout WorkerState.fresh [("text", .str "hi")]
    "hi" "wav" (by decide) (by decide) (by decide) (by decide) rfl
  exact ⟨h.1, h.2.1, h.2.2.1⟩

/-- Environment for a non-zero exit with nothing written to stderr. -/
def envSilentFailure : GenEnv :=
  ⟨initEnvOk, true, [], "/tmp/job2.txt", .completed 1 "boom stdout" "", [], []⟩

/-- C7, counterexample: the claim says the stderr excerpt is non-empty on
every non-zero exit, but when the child exits 1 having written nothing to
stderr the failure carries the empty stderr excerpt. -/
theorem C7_counterexample :
    (generate_audio envSilentFailure WorkerState.fresh (.dict [("text", .str "hi")])).1 =
      .error_generation_failed "" "boom stdout" := by decide

/-- C7 (amended): on non-zero exit, and on zero exit with no artifact
found, the failure carries exactly the first 500 characters of the child's
stderr and stdout — never more — and the stderr excerpt is empty exactly
when the child wrote nothing to stderr. -/
theorem C7_excerpts_capped :
    (∀ env st text sp fmt rc so se, find_script env ≠ Option.none →
      env.outcome = .completed rc so se → rc ≠ 0 →
      (after_init env st text sp fmt).1 =
        .error_generation_failed (takeChars se 500) (takeChars so 500)) ∧
    (∀ env st text sp fmt so se, find_script env ≠ Option.none →
      env.outcome = .completed 0 so se →
      maxByMtime (find_audio_files env.vibe_files env.out_files fmt) = Option.none →
      (after_init env st text sp fmt).1 =
        .error_no_audio (takeChars so 500) (takeChars se 500)) ∧
    (∀ (s : String) (n : Nat), (takeChars s n).length ≤ n) ∧
    (∀ s : String, takeChars s 500 = "" ↔ s = "") := by
  refine ⟨?_, ?_, ?_, ?_⟩
  · intro env st text sp fmt rc so se hscript hout hrc
    rcases hs : find_script env with _ | scr
    · exact absurd hs hscript
    · simp [after_init, hs, hout, hrc]
  · intro env st text sp fmt so se hscript hout hmax
    rcases hs : find_script env with _ | scr
    · exact absurd hs hscript
    · simp only [after_init, hs, hout, hmax, eq_self_iff_true, if_true]
  · intro s n
    show (s.data.take n).length ≤ n
    rw [List.length_take]
    omega
  · intro s
    constructor
    · intro h
      have : s.data.take 500 = [] := congrArg String.data h
      rcases List.take_eq_nil_iff.mp this with h5 | hd
      · exact absurd h5 (by decide)
      · exact congrArg String.mk hd
    · intro h
      subst h
      rfl

/-- C7, witness: non-zero exit with short streams carries them whole. -/
theorem C7_witness :
    (after_init envSilentFailure WorkerState.fresh "hi" ["Alice", "Bob"] "wav").1 =
      .error_generation_failed (takeChars "" 500) (takeChars "boom stdout" 500) :=
  C7_excerpts_capped.1 envSilentFailure WorkerState.fresh "hi" ["Alice", "Bob"] "wav" 1
    "boom stdout" "" (by decide) rfl (by decide)

/-- C8: the handler never lets a modelled exception escape — every call
returns a structured `Except.ok` value, and whenever the body raises, the
result is the `"Handler failed: ..."` failure value, preserving the worker
state for subsequent jobs. -/
theorem C8_handler_never_propagates :
    (∀ env st job, ∃ v, handler env st job = .ok v) ∧
    (∀ env st job e, handler_body env st job = .error e →
      handler env st job =
        .ok (.handler_failed ("Handler failed: " ++ e), st, GenTrace.empty)) := by
  constructor
  · intro env st job
    unfold handler
    cases handler_body env st job with
    | ok r => exact ⟨r, rfl⟩
    | error e => exact ⟨_, rfl⟩
  · intro env st job e h
    unfold handler
    rw [h]

/-- C8, witness: a non-dict job raises inside the body and is converted to
the structured failure. -/
theorem C8_witness :
    handler envTimeout WorkerState.fresh (.int 5) =
      .ok (.handler_failed "Handler failed: AttributeError: object has no attribute get",
        WorkerState.fresh, GenTrace.empty) :=
  C8_handler_never_propagates.2 envTimeout WorkerState.fresh (.int 5)
    "AttributeError: object has no attribute get" (by decide)

/-- C10: every success result reports the normalized requested format,
independently of the extension of the file the fallback search actually
selected and read. -/
theorem C10_reported_format (env : GenEnv) (st : WorkerState)
    (es : List (String × PyVal)) (fmt : String)
    (hfmt : validate_output_format (dictGet es "output_format" (.str "wav")) = .ok fmt) :
    ∀ bytes f sz sp tl,
      (generate_audio env st (.dict es)).1 = .success bytes f sz sp tl → f = fmt := by
  intro bytes f sz sp tl h
  rcases ht : validate_text (dictGet es "text" (.str "")) with m | text
  · simp [generate_audio, ht] at h
  · rcases hi : initialize_model env.init_env st with ⟨ok, st2, att⟩
    cases ok with
    | false => simp [generate_audio, ht, hfmt, hi] at h
    | true =>
        simp only [generate_audio, ht, hfmt, hi, if_true] at h
        rcases hs : find_script env with _ | scr
        · simp [after_init, hs] at h
        · rcases ho : env.outcome with _ | ⟨rc, so, se⟩
          · simp [after_init, hs, ho] at h
          · by_cases hrc : rc = 0
            · subst hrc
              rcases hm : maxByMtime (find_audio_files env.vibe_files env.out_files fmt)
                with _ | latest
              · simp [after_init, hs, ho, hm] at h
              · simp only [after_init, hs, ho, hm, if_true] at h
                injection h with h1 h2 h3 h4 h5
                exact h2.symm
            · simp [after_init, hs, ho, hrc] at h

/-- Environment in which only an mp3 file exists while wav is requested. -/
def envMp3Only : GenEnv :=
  ⟨initEnvOk, true, [], "/tmp/job3.txt", .completed 0 "" "",
   [⟨"/app/VibeVoice/outputs/a.mp3", "mp3", 7, [1, 2, 3]⟩], []⟩

/-- C10, witness: wav is requested, only an mp3 file is found and its bytes
are returned, yet the reported format is "wav". -/
theorem C10_witness :
    (generate_audio envMp3Only WorkerState.fresh
        (.dict [("text", .str "hi"), ("output_format", .str "wav")])).1 =
      .success [1, 2, 3] "wav" 3 ["Alice", "Bob"] 2 ∧
    (⟨"/app/VibeVoice/outputs/a.mp3", "mp3", 7, [1, 2, 3]⟩ : AFile).ext = "mp3" ∧
    ("wav" : String) = "wav" := by
  refine ⟨by decide, by decide, ?_⟩
  exact C10_reported_format envMp3Only WorkerState.fresh
    [("text", .str "hi"), ("output_format", .str "wav")] "wav" (by decide)
    [1, 2, 3] "wav" 3 ["Alice", "Bob"] 2 (by decide)

end VibeVoice
